import Mathlib

/-!
Shallow embedding of the repository's two source files:
the AI service module (client construction, session-content generation,
name extraction, grade extraction) and the student-profile page
(average computation, save handler, class display).

External collaborators (the generative-model HTTP API, the data store)
are modelled as oracle parameters; JS strings are Lean `String`s;
JS numbers are modelled as exact fractions (`JsRat`), which is faithful
for the small integral grade values the page manipulates.
-/

namespace Beta4

/-! Character and string utilities modelling JS primitives. -/

/-- Whitespace class of the JS regex `\s` and of `String.prototype.trim`
(modelled on the ASCII whitespace characters plus NBSP and BOM). -/
def jsSpace (c : Char) : Bool :=
  c = ' ' || c = '\t' || c = '\n' || c = '\r' || c = '\x0b' || c = '\x0c' ||
  c = '\u00A0' || c = '\uFEFF'

/-- JSON grammar whitespace (space, tab, line feed, carriage return). -/
def jsonWs (c : Char) : Bool :=
  c = ' ' || c = '\t' || c = '\n' || c = '\r'

/-- Drop `jsSpace` characters from both ends of a character list. -/
def trimChars (l : List Char) : List Char :=
  ((l.dropWhile jsSpace).reverse.dropWhile jsSpace).reverse

/-- JS `String.prototype.trim`. -/
def jsTrim (s : String) : String := ⟨trimChars s.data⟩

/-- JS `String.prototype.split('\n')` on the character list:
splits at every newline, keeping empty segments. -/
def splitLines : List Char → List (List Char)
  | [] => [[]]
  | c :: cs =>
    if c = '\n' then [] :: splitLines cs
    else
      match splitLines cs with
      | [] => [[c]]
      | h :: t => (c :: h) :: t

/-- JS `text.split('\n')` as a `String` operation. -/
def jsSplitNl (s : String) : List String :=
  (splitLines s.data).map (fun cs => (⟨cs⟩ : String))

/-! The AI client (`getAIClient`) and the gateway oracle. -/

/-- Source `getAIClient`: reads the API key from the environment; a missing
or empty key yields no client (`null`).  The client is represented by its
key, the only data the source stores in it. -/
def getAIClient (env : Option String) : Option String :=
  match env with
  | none => none
  | some key => if key = "" then none else some key

/-- Outcome of one `ai.models.generateContent` call: either a response whose
`.text` field may be absent (`none`) or present, or a thrown provider /
transport error. -/
inductive GwResult where
  | ok (text : Option String)
  | err (msg : String)

/-- The `type` argument of `generateSessionContent`. -/
inductive ContentType where
  | description
  | quiz

/-- Source prompt for `type === 'description'`. -/
def descriptionPrompt (topic : String) : String :=
  "Create a short, engaging description for a physical education session about \"" ++
  topic ++ "\". Include 3 key learning objectives. Keep it under 150 words."

/-- Source prompt for the quiz branch. -/
def quizPrompt (topic : String) : String :=
  "Create 3 multiple choice exam questions for a PE class session about \"" ++
  topic ++ "\". Include the correct answer. Format as simple text."

/-- Prompt selection of `generateSessionContent`. -/
def buildPrompt (topic : String) : ContentType → String
  | ContentType.description => descriptionPrompt topic
  | ContentType.quiz => quizPrompt topic

/-- Source `generateSessionContent`, with the network call replaced by the
gateway oracle `gw` applied to the constructed prompt. -/
def generateSessionContent (env : Option String) (gw : String → GwResult)
    (topic : String) (ty : ContentType) : String :=
  match getAIClient env with
  | none => "AI Service Unavailable (Missing or Invalid API Key)"
  | some _ =>
    match gw (buildPrompt topic ty) with
    | GwResult.err _ => "Failed to generate content. Please check your API key settings."
    | GwResult.ok t =>
      match t with
      | none => "No content generated."
      | some s => if s = "" then ("No content generated.") else s

/-- Line-by-line post-processing of the name-extraction response:
`text.split('\n').map(name => name.trim()).filter(name => name.length > 0)`. -/
def extractNamesText (text : String) : List String :=
  ((jsSplitNl text).map jsTrim).filter (fun n => n.length > 0)

/-- Source `extractStudentNamesFromImage` with the gateway call abstracted;
a thrown JS error is an `Except.error` carrying the thrown message. -/
def extractStudentNamesFromImage (env : Option String) (gw : GwResult) :
    Except String (List String) :=
  match getAIClient env with
  | none => Except.error ("AI Service Unavailable. Check API Key.")
  | some _ =>
    match gw with
    | GwResult.err _ => Except.error ("Failed to extract names from image. Please check your API key.")
    | GwResult.ok t => Except.ok (extractNamesText (t.getD ("")))

/-! Exact-fraction model of JS numbers. -/

/-- A JS number modelled as an exact, not necessarily reduced fraction
(denominator positive in every value the embedding builds). -/
structure JsRat where
  num : Int
  den : Nat
  deriving DecidableEq

instance : OfNat JsRat n := ⟨⟨Int.ofNat n, 1⟩⟩

instance : Add JsRat := ⟨fun a b => ⟨a.num * b.den + b.num * a.den, a.den * b.den⟩⟩

instance : Neg JsRat := ⟨fun a => ⟨-a.num, a.den⟩⟩

instance : Div JsRat :=
  ⟨fun a b =>
    if b.num < 0 then ⟨-(a.num * b.den), a.den * (-b.num).toNat⟩
    else ⟨a.num * b.den, a.den * b.num.toNat⟩⟩

/-! JSON values and a model of `JSON.parse`. -/

/-- A JSON value, as produced by `JSON.parse` (object fields in textual
order, as JS preserves string-key insertion order). -/
inductive Json where
  | null
  | bool (b : Bool)
  | num (q : JsRat)
  | str (s : String)
  | arr (elems : List Json)
  | obj (fields : List (String × Json))

/-- Skip JSON whitespace. -/
def skipWs : List Char → List Char
  | [] => []
  | c :: cs => if jsonWs c then skipWs cs else c :: cs

/-- Numeric value of a decimal digit character. -/
def digitVal (c : Char) : Nat := c.toNat - 48

/-- Consume a run of digits, accumulating value and digit count. -/
def takeDigits : List Char → Nat → Nat → Nat × Nat × List Char
  | [], acc, k => (acc, k, [])
  | c :: cs, acc, k =>
    if c.isDigit then takeDigits cs (acc * 10 + digitVal c) (k + 1)
    else (acc, k, c :: cs)

/-- Integer part of a JSON number: `0`, or a nonzero leading digit followed
by digits (JSON forbids redundant leading zeros). -/
def parseIntDigits : List Char → Option (Nat × List Char)
  | [] => none
  | c :: cs =>
    if c = '0' then some (0, cs)
    else if c.isDigit then
      let r := takeDigits cs (digitVal c) 1
      some (r.1, r.2.2)
    else none

/-- Fraction part `.digits` of a JSON number, as value and digit count;
`none` when no well-formed fraction part starts here. -/
def parseFracPart : List Char → Option (Nat × Nat × List Char)
  | [] => none
  | c :: cs =>
    if c = '.' then
      match cs with
      | d :: _ =>
        if d.isDigit then
          let r := takeDigits cs 0 0
          some (r.1, r.2.1, r.2.2)
        else none
      | [] => none
    else none

/-- Exponent part `e[+-]digits` of a JSON number; `none` when no well-formed
exponent starts here. -/
def parseExpPart : List Char → Option (Bool × Nat × List Char)
  | [] => none
  | c :: cs =>
    if c = 'e' || c = 'E' then
      let signed : Bool × List Char :=
        match cs with
        | s :: u => if s = '+' then (false, u) else if s = '-' then (true, u) else (false, cs)
        | [] => (false, cs)
      match signed.2 with
      | d :: _ =>
        if d.isDigit then
          let r := takeDigits signed.2 0 0
          some (signed.1, r.1, r.2.2)
        else none
      | [] => none
    else none

/-- Assemble a number from sign, mantissa digits, fraction length and
optional exponent, exactly. -/
def mkJsonNum (neg : Bool) (mant scale : Nat) (ex : Option (Bool × Nat)) : JsRat :=
  let n : Nat :=
    match ex with
    | some (false, e) => mant * 10 ^ e
    | _ => mant
  let den : Nat :=
    match ex with
    | some (true, e) => 10 ^ (scale + e)
    | _ => 10 ^ scale
  ⟨if neg then -(n : Int) else (n : Int), den⟩

/-- Parse a JSON number at the head of the input. -/
def parseNumberCore (cs : List Char) : Option (JsRat × List Char) :=
  let signed : Bool × List Char :=
    match cs with
    | c :: t => if c = '-' then (true, t) else (false, cs)
    | [] => (false, cs)
  match parseIntDigits signed.2 with
  | none => none
  | some (ip, cs2) =>
    match parseFracPart cs2 with
    | some (fv, fc, cs3) =>
      match parseExpPart cs3 with
      | some (eneg, e, cs4) =>
        some (mkJsonNum signed.1 (ip * 10 ^ fc + fv) fc (some (eneg, e)), cs4)
      | none => some (mkJsonNum signed.1 (ip * 10 ^ fc + fv) fc none, cs3)
    | none =>
      match parseExpPart cs2 with
      | some (eneg, e, cs3) => some (mkJsonNum signed.1 ip 0 (some (eneg, e)), cs3)
      | none => some (⟨if signed.1 then -(ip : Int) else (ip : Int), 1⟩, cs2)

/-- Value of a hexadecimal digit character, if any. -/
def hexVal (c : Char) : Option Nat :=
  if c.isDigit then some (c.toNat - 48)
  else if 'a' ≤ c ∧ c ≤ 'f' then some (c.toNat - 87)
  else if 'A' ≤ c ∧ c ≤ 'F' then some (c.toNat - 55)
  else none

/-- Parse the body of a JSON string after the opening quote, handling the
JSON escape sequences; `acc` holds the characters read so far, reversed. -/
def parseStrChars : List Char → List Char → Option (String × List Char)
  | [], _ => none
  | c :: cs, acc =>
    if c = '\"' then some (⟨acc.reverse⟩, cs)
    else if c = '\\' then
      match cs with
      | [] => none
      | e :: cs2 =>
        if e = '\"' then parseStrChars cs2 ('\"' :: acc)
        else if e = '\\' then parseStrChars cs2 ('\\' :: acc)
        else if e = '/' then parseStrChars cs2 ('/' :: acc)
        else if e = 'b' then parseStrChars cs2 ('\x08' :: acc)
        else if e = 'f' then parseStrChars cs2 ('\x0c' :: acc)
        else if e = 'n' then parseStrChars cs2 ('\n' :: acc)
        else if e = 'r' then parseStrChars cs2 ('\r' :: acc)
        else if e = 't' then parseStrChars cs2 ('\t' :: acc)
        else if e = 'u' then
          match cs2 with
          | h1 :: h2 :: h3 :: h4 :: cs3 =>
            match hexVal h1, hexVal h2, hexVal h3, hexVal h4 with
            | some a, some b, some c2, some d =>
              parseStrChars cs3 (Char.ofNat (((a * 16 + b) * 16 + c2) * 16 + d) :: acc)
            | _, _, _, _ => none
          | _ => none
        else none
    else parseStrChars cs (c :: acc)

/-- The opening-brace, closing-brace and backquote characters. -/
def lbrace : Char := Char.ofNat 123

def rbrace : Char := Char.ofNat 125

def btick : Char := Char.ofNat 96

/-- Array-element loop of the JSON value parser; `pv` parses one value. -/
def parseItemsA (pv : List Char → Option (Json × List Char)) :
    Nat → List Char → List Json → Option (Json × List Char)
  | 0, _, _ => none
  | n + 1, cs, acc =>
    match pv cs with
    | none => none
    | some (v, rest) =>
      match skipWs rest with
      | c :: r =>
        if c = ',' then parseItemsA pv n r (acc ++ [v])
        else if c = ']' then some (Json.arr (acc ++ [v]), r)
        else none
      | [] => none

/-- Object-member loop of the JSON value parser; `pv` parses one value. -/
def parseItemsO (pv : List Char → Option (Json × List Char)) :
    Nat → List Char → List (String × Json) → Option (Json × List Char)
  | 0, _, _ => none
  | n + 1, cs, acc =>
    match skipWs cs with
    | c :: r =>
      if c = '\"' then
        match parseStrChars r [] with
        | none => none
        | some (k, r2) =>
          match skipWs r2 with
          | c2 :: r3 =>
            if c2 = ':' then
              match pv r3 with
              | none => none
              | some (v, r4) =>
                match skipWs r4 with
                | c3 :: r5 =>
                  if c3 = ',' then parseItemsO pv n r5 (acc ++ [(k, v)])
                  else if c3 = rbrace then some (Json.obj (acc ++ [(k, v)]), r5)
                  else none
                | [] => none
            else none
          | [] => none
      else none
    | [] => none

/-- Parse one JSON value, fuelled; fuel bounds nesting depth and element
count, and one unit per input character plus one is always enough. -/
def parseVal : Nat → List Char → Option (Json × List Char)
  | 0, _ => none
  | fuel + 1, cs =>
    match skipWs cs with
    | 'n' :: 'u' :: 'l' :: 'l' :: rest => some (Json.null, rest)
    | 't' :: 'r' :: 'u' :: 'e' :: rest => some (Json.bool true, rest)
    | 'f' :: 'a' :: 'l' :: 's' :: 'e' :: rest => some (Json.bool false, rest)
    | c :: rest =>
      if c = '\"' then
        match parseStrChars rest [] with
        | some (s, r) => some (Json.str s, r)
        | none => none
      else if c = '[' then
        match skipWs rest with
        | c2 :: r2 =>
          if c2 = ']' then some (Json.arr [], r2)
          else parseItemsA (parseVal fuel) fuel (c2 :: r2) []
        | [] => none
      else if c = lbrace then
        match skipWs rest with
        | c2 :: r2 =>
          if c2 = rbrace then some (Json.obj [], r2)
          else parseItemsO (parseVal fuel) fuel (c2 :: r2) []
        | [] => none
      else
        match parseNumberCore (c :: rest) with
        | some (q, r) => some (Json.num q, r)
        | none => none
    | [] => none

/-- Model of `JSON.parse`: one value, with only whitespace allowed after it;
`none` is the thrown `SyntaxError`. -/
def parseJson (s : String) : Option Json :=
  match parseVal (s.data.length + 1) s.data with
  | some (v, rest) => if (skipWs rest).isEmpty then some v else none
  | none => none

/-! Markdown code-fence stripping of `extractGradesFromImage`. -/

/-- The characters of the opening fence marker. -/
def fenceOpenChars : List Char := [btick, btick, btick, 'j', 's', 'o', 'n']

/-- The characters of the closing fence marker. -/
def fenceCloseChars : List Char := [btick, btick, btick]

/-- Model of `text.replace(/^```json\s*/, '')`: when the text starts with
the marker, remove it and the whitespace run after it. -/
def stripLeadFenceChars (l : List Char) : List Char :=
  if fenceOpenChars.isPrefixOf l then (l.drop 7).dropWhile jsSpace else l

/-- Model of `text.replace(/\s*```$/, '')`: the regex's leftmost match is
the trailing marker together with the whitespace run before it. -/
def stripTrailFenceChars (l : List Char) : List Char :=
  if fenceCloseChars.isPrefixOf l.reverse then
    ((l.reverse.drop 3).dropWhile jsSpace).reverse
  else l

/-- The two `replace` calls of `extractGradesFromImage`, in source order. -/
def stripFences (s : String) : String :=
  ⟨stripTrailFenceChars (stripLeadFenceChars s.data)⟩

/-- Source `extractGradesFromImage` with the gateway call abstracted: no
client throws; a gateway error or a `JSON.parse` failure is caught and
rethrown as the fixed message; an absent or empty payload short-circuits
to the empty array before any parsing. -/
def extractGradesFromImage (env : Option String) (gw : GwResult) :
    Except String Json :=
  match getAIClient env with
  | none => Except.error ("AI Service Unavailable")
  | some _ =>
    match gw with
    | GwResult.err _ => Except.error ("Failed to extract grades from image.")
    | GwResult.ok t =>
      match t with
      | none => Except.ok (Json.arr [])
      | some text =>
        if text = "" then Except.ok (Json.arr [])
        else
          match parseJson (stripFences text) with
          | some v => Except.ok v
          | none => Except.error ("Failed to extract grades from image.")

/-! The student-profile page. -/

/-- A note field as the page sees it: a number, an absent value, or a
non-numeric value (both of which `Number(...)` turns into `NaN`). -/
inductive JsNum where
  | num (q : JsRat)
  | missing
  | nonNumeric
  deriving DecidableEq

/-- The `Student` record of the page. -/
structure Student where
  id : String
  name : String
  classId : Option String
  note1 : JsNum
  note2 : JsNum
  note3 : JsNum

/-- The `ClassGroup` record of the page. -/
structure ClassGroup where
  id : String
  name : String

/-- `Number(v) || 0` of the source: a numeric value passes through (with
`0` mapped to `0` by the `||` as well), `NaN` falls back to `0`. -/
def numberOr0 : JsNum → JsRat
  | JsNum.num q => q
  | JsNum.missing => 0
  | JsNum.nonNumeric => 0

/-- Two-decimal rendering of a nonnegative fraction: the integer nearest to
`100 * x`, ties upward, printed with an always-two-digit fraction part. -/
def fixedPos (x : JsRat) : String :=
  let m : Nat := (200 * x.num.toNat + x.den) / (2 * x.den)
  let ip := m / 100
  let f := m % 100
  toString ip ++ "." ++ (if f < 10 then ("0" ++ toString f) else toString f)

/-- JS `Number.prototype.toFixed(2)` on an exact fraction: sign first, then
round the magnitude half upward to hundredths. -/
def toFixed2 (q : JsRat) : String :=
  if q.num < 0 then ("-" ++ fixedPos ⟨-q.num, q.den⟩) else fixedPos q

/-- Source `calculateAverage`:
`((Number(s.note1) || 0) + (Number(s.note2) || 0) + (Number(s.note3) || 0)) / 3`,
rendered with `toFixed(2)`. -/
def calculateAverage (s : Student) : String :=
  let sum := numberOr0 s.note1 + numberOr0 s.note2 + numberOr0 s.note3
  toFixed2 (sum / 3)

/-- Result of `handleSave`: the student held in component state afterwards
and the alerts shown to the user. -/
structure SaveOutcome where
  student : Student
  alerts : List String

/-- Source `handleSave` on a loaded student, with the store's `saveStudent`
as an oracle: a non-null result replaces the state and reports success, a
null result leaves the state as it was and reports failure. -/
def handleSave (student : Student) (saveStudent : Student → Option Student) :
    SaveOutcome :=
  match saveStudent student with
  | some updated => ⟨updated, ["Changes saved successfully!"]⟩
  | none => ⟨student, ["Failed to save changes."]⟩

/-- The page's class lookup: `getClass` is queried only when the student
carries a truthy `classId` (the empty string is falsy in JS). -/
def loadClassGroup (classId : Option String)
    (getClass : String → Option ClassGroup) : Option ClassGroup :=
  match classId with
  | none => none
  | some cid => if cid = "" then none else getClass cid

/-- The rendered class line: `classGroup?.name || 'Unassigned Class'`. -/
def classDisplay (cg : Option ClassGroup) : String :=
  match cg with
  | some c => if c.name = "" then ("Unassigned Class") else c.name
  | none => "Unassigned Class"

/-! Helper lemmas. -/

/-- Every name the line parser returns is the trim of some input line and is
nonempty. -/
theorem mem_extractNames {text n : String} (h : n ∈ extractNamesText text) :
    (∃ line, line ∈ jsSplitNl text ∧ n = jsTrim line) ∧ n ≠ "" := by
  unfold extractNamesText at h
  rw [List.mem_filter] at h
  obtain ⟨hmem, hp⟩ := h
  refine ⟨?_, ?_⟩
  · rw [List.mem_map] at hmem
    obtain ⟨line, hl, he⟩ := hmem
    exact ⟨line, hl, he.symm⟩
  · intro he
    subst he
    exact absurd hp (by decide)

/-- The line parser's output is a sublist of the trimmed input lines, so it
preserves input order. -/
theorem extractNames_sublist (text : String) :
    (extractNamesText text).Sublist ((jsSplitNl text).map jsTrim) :=
  List.filter_sublist _

/-! Claim theorems. -/

/-- C1: `extractGradesFromImage` strips a leading "```json" fence marker and
a trailing "```" marker from the raw model text before JSON-parsing it, so
on the fence-wrapped one-record array it returns exactly that one record. -/
theorem c1_grade_fence (env : Option String) (k : String)
    (h : getAIClient env = some k) :
    extractGradesFromImage env
      (GwResult.ok (some ("```json\n[\x7b\"name\":\"A\",\"note1\":1,\"note2\":2,\"note3\":3\x7d]\n```"))) =
    Except.ok (Json.arr [Json.obj [("name", Json.str ("A")), ("note1", Json.num 1),
      ("note2", Json.num 2), ("note3", Json.num 3)]]) := by
  unfold extractGradesFromImage
  rw [h]
  rfl

/-- Witness for C1 at a concretely configured client. -/
theorem c1_grade_fence_witness :
    getAIClient (some ("key")) = some ("key") ∧
    extractGradesFromImage (some ("key"))
      (GwResult.ok (some ("```json\n[\x7b\"name\":\"A\",\"note1\":1,\"note2\":2,\"note3\":3\x7d]\n```"))) =
    Except.ok (Json.arr [Json.obj [("name", Json.str ("A")), ("note1", Json.num 1),
      ("note2", Json.num 2), ("note3", Json.num 3)]]) :=
  ⟨rfl, c1_grade_fence (some ("key")) ("key") rfl⟩

/-- C2: on a nonempty payload that is not valid JSON after fence stripping,
`extractGradesFromImage` surfaces the malformed-response error instead of
returning an empty list. -/
theorem c2_malformed (env : Option String) (k text : String)
    (hc : getAIClient env = some k) (hne : text ≠ "")
    (hbad : parseJson (stripFences text) = none) :
    extractGradesFromImage env (GwResult.ok (some text)) =
      Except.error ("Failed to extract grades from image.") ∧
    extractGradesFromImage env (GwResult.ok (some text)) ≠
      Except.ok (Json.arr []) := by
  have hmain : extractGradesFromImage env (GwResult.ok (some text)) =
      Except.error ("Failed to extract grades from image.") := by
    unfold extractGradesFromImage
    rw [hc]
    simp only [if_neg hne, hbad]
  exact ⟨hmain, by rw [hmain]; simp⟩

/-- Witness for C2 on a concrete non-JSON payload. -/
theorem c2_malformed_witness :
    parseJson (stripFences ("not json")) = none ∧
    extractGradesFromImage (some ("key")) (GwResult.ok (some ("not json"))) =
      Except.error ("Failed to extract grades from image.") :=
  ⟨rfl, (c2_malformed (some ("key")) ("key") ("not json") rfl (by decide) rfl).1⟩

/-- C3: the name-list parser splits on line breaks, trims each line,
discards lines empty after trimming, preserves input order, and on the
spec's example input returns exactly the two names. -/
theorem c3_names :
    (∀ text n : String, n ∈ extractNamesText text →
      ((∃ line, line ∈ jsSplitNl text ∧ n = jsTrim line) ∧ n ≠ "")) ∧
    (∀ text : String,
      (extractNamesText text).Sublist ((jsSplitNl text).map jsTrim)) ∧
    extractNamesText ("Alice Smith\n\nBob Jones\n  \n") = ["Alice Smith", "Bob Jones"] :=
  ⟨fun _ _ h => mem_extractNames h, fun _ => extractNames_sublist _, by decide⟩

/-- Witness for C3 at a concrete input and member. -/
theorem c3_names_witness :
    "Alice Smith" ∈ extractNamesText ("Alice Smith\n\nBob Jones\n  \n") ∧
    ((∃ line, line ∈ jsSplitNl ("Alice Smith\n\nBob Jones\n  \n") ∧
        "Alice Smith" = jsTrim line) ∧ ("Alice Smith" : String) ≠ "") :=
  ⟨by decide, c3_names.1 ("Alice Smith\n\nBob Jones\n  \n") ("Alice Smith") (by decide)⟩

/-- C4: `calculateAverage` is the two-decimal rendering of
`(note1 + note2 + note3) / 3` with missing or non-numeric notes coerced to
`0`, and on notes (12, 15, 18) it renders exactly "15.00". -/
theorem c4_average :
    calculateAverage ⟨"s1", "Ada", none, JsNum.num 12, JsNum.num 15, JsNum.num 18⟩ = "15.00" ∧
    (numberOr0 JsNum.missing = 0 ∧ numberOr0 JsNum.nonNumeric = 0) ∧
    (∀ s : Student, calculateAverage s =
      toFixed2 ((numberOr0 s.note1 + numberOr0 s.note2 + numberOr0 s.note3) / 3)) ∧
    (∀ (i nm : String) (cid : Option String) (v b c : JsNum),
      (v = JsNum.missing ∨ v = JsNum.nonNumeric) →
      calculateAverage ⟨i, nm, cid, v, b, c⟩ =
        calculateAverage ⟨i, nm, cid, JsNum.num 0, b, c⟩) := by
  refine ⟨by decide, ⟨rfl, rfl⟩, fun s => rfl, ?_⟩
  rintro i nm cid v b c (rfl | rfl) <;> rfl

/-- Witness for C4's defaulting clause at a missing first note. -/
theorem c4_average_witness :
    calculateAverage ⟨"s1", "Ada", none, JsNum.missing, JsNum.num 3, JsNum.num 3⟩ =
      calculateAverage ⟨"s1", "Ada", none, JsNum.num 0, JsNum.num 3, JsNum.num 3⟩ :=
  c4_average.2.2.2 ("s1") ("Ada") none JsNum.missing (JsNum.num 3) (JsNum.num 3) (Or.inl rfl)

/-- C5: with no configured credential, all three AI operations return their
service-unavailable outcome without consulting the gateway oracle at all
(the result is the same for every oracle, i.e. no network request is made). -/
theorem c5_no_credential (env : Option String) (h : getAIClient env = none) :
    (∀ (gw : String → GwResult) (topic : String) (ty : ContentType),
      generateSessionContent env gw topic ty =
        "AI Service Unavailable (Missing or Invalid API Key)") ∧
    (∀ gw : GwResult, extractStudentNamesFromImage env gw =
      Except.error ("AI Service Unavailable. Check API Key.")) ∧
    (∀ gw : GwResult, extractGradesFromImage env gw =
      Except.error ("AI Service Unavailable")) := by
  refine ⟨fun gw topic ty => ?_, fun gw => ?_, fun gw => ?_⟩
  · unfold generateSessionContent
    rw [h]
  · unfold extractStudentNamesFromImage
    rw [h]
  · unfold extractGradesFromImage
    rw [h]

/-- Witness for C5 with the environment empty. -/
theorem c5_no_credential_witness :
    generateSessionContent none (fun _ => GwResult.err ("boom")) ("Football")
      ContentType.description = "AI Service Unavailable (Missing or Invalid API Key)" ∧
    extractStudentNamesFromImage none (GwResult.ok (some ("Alice"))) =
      Except.error ("AI Service Unavailable. Check API Key.") ∧
    extractGradesFromImage none (GwResult.ok (some ("[]"))) =
      Except.error ("AI Service Unavailable") :=
  ⟨(c5_no_credential none rfl).1 _ _ _, (c5_no_credential none rfl).2.1 _,
    (c5_no_credential none rfl).2.2 _⟩

/-- C6: when the store's save returns null, `handleSave` keeps the
in-memory student exactly as it was and visibly reports the failure. -/
theorem c6_save_failure (s : Student) (saveStudent : Student → Option Student)
    (h : saveStudent s = none) :
    (handleSave s saveStudent).student = s ∧
    "Failed to save changes." ∈ (handleSave s saveStudent).alerts := by
  unfold handleSave
  rw [h]
  exact ⟨rfl, by simp⟩

/-- Witness for C6 with an always-failing store. -/
theorem c6_save_failure_witness :
    (handleSave ⟨"s1", "Ada", none, JsNum.num 1, JsNum.num 2, JsNum.num 3⟩
        (fun _ => none)).student =
      ⟨"s1", "Ada", none, JsNum.num 1, JsNum.num 2, JsNum.num 3⟩ ∧
    "Failed to save changes." ∈
      (handleSave ⟨"s1", "Ada", none, JsNum.num 1, JsNum.num 2, JsNum.num 3⟩
        (fun _ => none)).alerts :=
  c6_save_failure ⟨"s1", "Ada", none, JsNum.num 1, JsNum.num 2, JsNum.num 3⟩
    (fun _ => none) rfl

/-- C7 counterexample: a duplicated line survives the name parser twice, so
the returned list is not duplicate-free as the claim states. -/
theorem c7_duplicates_cex :
    extractNamesText ("A\nA") = ["A", "A"] ∧
    ¬ (extractNamesText ("A\nA")).Nodup :=
  ⟨by decide, by decide⟩

/-- C7 amended: blank lines are dropped (no blank entry is ever returned),
but duplicate lines are kept, one entry per occurrence. -/
theorem c7_amended_no_blanks :
    (∀ text n : String, n ∈ extractNamesText text → n ≠ "") ∧
    extractNamesText ("A\nA") = ["A", "A"] :=
  ⟨fun _ _ h => (mem_extractNames h).2, by decide⟩

/-- Witness for the amended C7 at a concrete member. -/
theorem c7_amended_no_blanks_witness :
    "A" ∈ extractNamesText ("A\nA") ∧ ("A" : String) ≠ "" :=
  ⟨by decide, c7_amended_no_blanks.1 ("A\nA") ("A") (by decide)⟩

/-- C8: a student whose classId resolves to no known class renders the
unassigned placeholder rather than failing. -/
theorem c8_unassigned (classId : Option String)
    (getClass : String → Option ClassGroup)
    (h : ∀ cid, classId = some cid → getClass cid = none) :
    classDisplay (loadClassGroup classId getClass) = "Unassigned Class" := by
  cases classId with
  | none => rfl
  | some cid =>
    unfold loadClassGroup
    by_cases hc : cid = ""
    · simp only [if_pos hc]
      rfl
    · simp only [if_neg hc, h cid rfl]
      rfl

/-- Witness for C8 with a store that knows no class. -/
theorem c8_unassigned_witness :
    classDisplay (loadClassGroup (some ("c1")) (fun _ => none)) = "Unassigned Class" :=
  c8_unassigned (some ("c1")) (fun _ => none) (fun _ _ => rfl)

/-- C9: when the gateway succeeds with an absent or empty text payload,
`extractGradesFromImage` returns the empty array without any error. -/
theorem c9_empty_payload (env : Option String) (k : String)
    (h : getAIClient env = some k) :
    extractGradesFromImage env (GwResult.ok none) = Except.ok (Json.arr []) ∧
    extractGradesFromImage env (GwResult.ok (some (""))) = Except.ok (Json.arr []) := by
  unfold extractGradesFromImage
  rw [h]
  exact ⟨rfl, rfl⟩

/-- Witness for C9 at a concretely configured client. -/
theorem c9_empty_payload_witness :
    extractGradesFromImage (some ("key")) (GwResult.ok none) = Except.ok (Json.arr []) ∧
    extractGradesFromImage (some ("key")) (GwResult.ok (some (""))) = Except.ok (Json.arr []) :=
  c9_empty_payload (some ("key")) ("key") rfl

/-- C10: `generateSessionContent` always returns a nonempty string, mapping
a missing credential, a gateway error and an absent or empty payload to
their fixed placeholder strings and passing a nonempty payload through. -/
theorem c10_generate_total (env : Option String) (gw : String → GwResult)
    (topic : String) (ty : ContentType) :
    generateSessionContent env gw topic ty ≠ "" ∧
    (getAIClient env = none →
      generateSessionContent env gw topic ty =
        "AI Service Unavailable (Missing or Invalid API Key)") ∧
    (∀ k e, getAIClient env = some k → gw (buildPrompt topic ty) = GwResult.err e →
      generateSessionContent env gw topic ty =
        "Failed to generate content. Please check your API key settings.") ∧
    (∀ k, getAIClient env = some k →
      (gw (buildPrompt topic ty) = GwResult.ok none ∨
        gw (buildPrompt topic ty) = GwResult.ok (some (""))) →
      generateSessionContent env gw topic ty = "No content generated.") ∧
    (∀ k t, getAIClient env = some k → gw (buildPrompt topic ty) = GwResult.ok (some t) →
      t ≠ "" → generateSessionContent env gw topic ty = t) := by
  unfold generateSessionContent
  cases hc : getAIClient env with
  | none =>
    refine ⟨?_, fun _ => rfl, ?_, ?_, ?_⟩
    · show ("AI Service Unavailable (Missing or Invalid API Key)" : String) ≠ ""
      decide
    · intro k e hk _
      exact absurd hk (by simp)
    · intro k hk _
      exact absurd hk (by simp)
    · intro k t hk _ _
      exact absurd hk (by simp)
  | some key =>
    refine ⟨?_, ?_, ?_, ?_, ?_⟩
    · cases hg : gw (buildPrompt topic ty) with
      | err m =>
        show ("Failed to generate content. Please check your API key settings." : String) ≠ ""
        decide
      | ok t =>
        cases t with
        | none =>
          show ("No content generated." : String) ≠ ""
          decide
        | some s =>
          show (if s = "" then ("No content generated.") else s) ≠ ""
          by_cases hs : s = ""
          · simp only [if_pos hs]
            decide
          · simp only [if_neg hs]
            exact hs
    · intro hnone
      exact absurd hnone (by simp)
    · intro k e _ he
      rw [he]
    · intro k _ hor
      rcases hor with he | he
      · rw [he]
      · rw [he]
        rfl
    · intro k t _ ht htne
      rw [ht]
      simp only [if_neg htne]

/-- Witness for C10 on a succeeding gateway with a nonempty payload. -/
theorem c10_generate_total_witness :
    generateSessionContent (some ("key")) (fun _ => GwResult.ok (some ("hello")))
      ("Football") ContentType.quiz ≠ "" ∧
    generateSessionContent (some ("key")) (fun _ => GwResult.ok (some ("hello")))
      ("Football") ContentType.quiz = "hello" :=
  ⟨(c10_generate_total (some ("key")) (fun _ => GwResult.ok (some ("hello")))
      ("Football") ContentType.quiz).1,
    (c10_generate_total (some ("key")) (fun _ => GwResult.ok (some ("hello")))
      ("Football") ContentType.quiz).2.2.2.2 ("key") ("hello") rfl rfl (by decide)⟩

end Beta4
